import Mathlib

/-!
# Verification of the KPBot message-relay Discord bot (src/index.js)

This file gives a shallow embedding of the single source file of the
repository: the `messageCreate` handler (channel-hygiene enforcement,
prompt extraction, attachment processing and answer relay), the
`interactionCreate` handler (the "Close Session" button), and the
`urlToGenerativePart` helper (base64 image encoding).  External calls
(Discord API operations, the HTTP fetch of an attachment, the generative
model) are modelled by an oracle recording each call's outcome; every
handler is a pure function from the environment, the oracle and the
inbound event to the ordered list of outbound calls it attempts
(its trace) together with whether a failure escapes the handler.
-/

namespace KPBot

/-! ## Character level utilities (JS string primitives used by index.js) -/

/-- Whitespace as matched by the JavaScript regexp class and by
`String.prototype.trim` (the ASCII part plus NBSP, which covers every
character the program can meet in practice). -/
def isJsSpace (c : Char) : Bool :=
  c = ' ' || c = '\t' || c = '\n' || c = '\r' || c = '\x0b' || c = '\x0c' || c = ' '

/-- JavaScript `String.prototype.trim`: drop leading and trailing whitespace. -/
def trimChars (cs : List Char) : List Char :=
  ((cs.dropWhile isJsSpace).reverse.dropWhile isJsSpace).reverse

/-- JavaScript `haystack.startsWith(needle)` over character lists
(first argument the haystack, second the needle). -/
def startsWithL (hay needle : List Char) : Bool :=
  match needle, hay with
  | [], _ => true
  | _ :: _, [] => false
  | d :: ds, c :: cs => c == d && startsWithL cs ds

/-- JavaScript `s.split('_')`: split at every underscore, keeping empty
segments, as used on the button's custom id. -/
def splitUnder : List Char → List (List Char)
  | [] => [[]]
  | c :: rest =>
    let ps := splitUnder rest
    if c = '_' then [] :: ps
    else (c :: ps.headD []) :: ps.tail

/-! ## Base64 (Node `Buffer.prototype.toString('base64')`) -/

/-- The RFC 4648 base64 alphabet used by Node's `Buffer`. -/
def b64Alphabet : List Char :=
  "ABCDEFGHIJKLMNOPQRSTUVWXYZabcdefghijklmnopqrstuvwxyz0123456789+/".data

/-- Character for a six-bit group. -/
def b64Char (n : Nat) : Char := b64Alphabet.getD n 'A'

/-- Index of a base64 character in the alphabet, `none` for a foreign
character. -/
def b64Val (c : Char) : Option Nat := b64Alphabet.indexOf? c

/-- Standard padded base64 of a byte sequence, the encoding produced by
`buffer.toString('base64')` in `urlToGenerativePart`.  Bytes are naturals
below 256. -/
def base64Encode : List Nat → List Char
  | b0 :: b1 :: b2 :: rest =>
      b64Char (b0 / 4) :: b64Char ((b0 % 4) * 16 + b1 / 16) ::
      b64Char ((b1 % 16) * 4 + b2 / 64) :: b64Char (b2 % 64) :: base64Encode rest
  | [b0, b1] =>
      [b64Char (b0 / 4), b64Char ((b0 % 4) * 16 + b1 / 16), b64Char ((b1 % 16) * 4), '=']
  | [b0] =>
      [b64Char (b0 / 4), b64Char ((b0 % 4) * 16), '=', '=']
  | [] => []

/-- Mathematical inverse of `base64Encode`: a standard padded base64
decoder, used to state encoding fidelity. -/
def base64Decode : List Char → Option (List Nat)
  | [] => some []
  | c0 :: c1 :: c2 :: c3 :: rest =>
    if c2 = '=' ∧ c3 = '=' ∧ rest = [] then do
      let v0 ← b64Val c0
      let v1 ← b64Val c1
      some [v0 * 4 + v1 / 16]
    else if c3 = '=' ∧ rest = [] then do
      let v0 ← b64Val c0
      let v1 ← b64Val c1
      let v2 ← b64Val c2
      some [v0 * 4 + v1 / 16, (v1 % 16) * 16 + v2 / 4]
    else do
      let v0 ← b64Val c0
      let v1 ← b64Val c1
      let v2 ← b64Val c2
      let v3 ← b64Val c3
      let bs ← base64Decode rest
      some ([v0 * 4 + v1 / 16, (v1 % 16) * 16 + v2 / 4, (v2 % 4) * 64 + v3] ++ bs)
  | _ => none

theorem b64Val_b64Char : ∀ n, n < 64 → b64Val (b64Char n) = some n := by decide

theorem b64Char_ne_eq : ∀ n, n < 64 → b64Char n ≠ '=' := by decide

/-! ## The mention-stripping regexp

`message.content.replace(/<@!?\d+>\s*/, '')` removes the first (leftmost)
substring matching `<@`, an optional `!`, one or more digits, `>`, and any
following whitespace.  The regexp is not anchored and matches a mention of
any user, not only the bot. -/

/-- Try to match `<@!?\d+>\s*` at the head of the list; on success return
the remainder after the (greedy) match. -/
def matchMention (cs : List Char) : Option (List Char) :=
  match cs with
  | '<' :: '@' :: rest =>
    let rest1 := match rest with
      | '!' :: r => r
      | _ => rest
    let digits := rest1.takeWhile Char.isDigit
    let after := rest1.dropWhile Char.isDigit
    if digits.isEmpty then none
    else
      match after with
      | '>' :: r => some (r.dropWhile isJsSpace)
      | _ => none
  | _ => none

/-- JavaScript `content.replace(/<@!?\d+>\s*/, '')`: delete the leftmost
match, leave everything else untouched. -/
def replaceFirstMention : List Char → List Char
  | [] => []
  | c :: cs =>
    match matchMention (c :: cs) with
    | some rest => rest
    | none => c :: replaceFirstMention cs

/-- Line 104 of index.js: the prompt is the content with the first
user-mention token removed and the result trimmed. -/
def promptOf (content : String) : String :=
  ⟨trimChars (replaceFirstMention content.data)⟩

/-! ## Data model (the Discord objects the handler reads) -/

/-- A Discord user as consumed by the handler: snowflake id (a string),
the `bot` flag and the display name. -/
structure User where
  id : String
  bot : Bool
  username : String
  deriving Repr, DecidableEq

/-- The channel a message arrived in: its id, whether it is a thread, and
its parent channel id when it is one. -/
structure Channel where
  id : String
  isThread : Bool
  parentId : Option String
  deriving Repr, DecidableEq

/-- An attachment: download URL and declared content type
(`contentType` may be absent, matching the `?.` access in the source). -/
structure Attachment where
  url : String
  contentType : Option String
  deriving Repr, DecidableEq

/-- An inbound message event. `mentionUserIds` models the keys of
`message.mentions.users`. -/
structure Message where
  author : User
  channel : Channel
  content : String
  attachments : List Attachment
  mentionUserIds : List String
  deriving Repr, DecidableEq

/-- A button interaction event. -/
structure Interaction where
  isButton : Bool
  customId : String
  userId : String
  deriving Repr, DecidableEq

/-- Static configuration: the configured allowed channel id and the bot's
own user id (`client.user.id`). -/
structure Env where
  allowedChannelId : String
  botUserId : String
  deriving Repr, DecidableEq

/-- A content part handed to the generative model: a text part, or the
inline image data produced by `urlToGenerativePart` (base64 string plus
MIME type). -/
inductive ContentPart where
  | text (t : String)
  | inlineData (data : String) (mimeType : String)
  deriving Repr, DecidableEq

/-- The "Close Session" button as built on lines 131-135. -/
structure CloseButton where
  customId : String
  label : String
  emoji : String
  deriving Repr, DecidableEq

/-- One outbound call attempted by a handler, in program order. -/
inductive Action where
  | deleteMessage
  | dmAuthor (t : String)
  | sendTyping
  | fetchUrl (url : String)
  | invokeAI (sys : String) (parts : List ContentPart)
  | replyValidation (t : String)
  | startThread (nm : String)
  | threadSend (content : String) (buttons : List CloseButton)
  | replyText (t : String)
  | replyError (t : String)
  | denialReply (t : String)
  | confirmReply (t : String)
  | deleteChannel
  deriving Repr, DecidableEq

/-- Whether a handler invocation terminates normally or lets a rejection
escape the handler (an unhandled promise rejection). -/
inductive Outcome where
  | normal
  | escaped
  deriving Repr, DecidableEq

/-- Outcomes of the external calls a single event may perform.  A `Bool`
field is `true` when the corresponding call succeeds; `fetchResult` is the
fetched attachment body (`none` = the HTTP request throws) and
`modelResult` the generated text (`none` = the model call throws).
Calls whose failure is invisible in the trace and the outcome (the DM on
line 84, the error reply on line 152, the thread deletion on line 173)
need no field. -/
structure Oracle where
  typingOk : Bool
  fetchResult : Option (List Nat)
  validationReplyOk : Bool
  modelResult : Option String
  startThreadOk : Bool
  threadSendOk : Bool
  deleteAfterOk : Bool
  replyTextOk : Bool
  cleanupDeleteOk : Bool
  denialReplyOk : Bool
  confirmReplyOk : Bool
  deriving Repr, DecidableEq

/-! ## Message texts and the persona (string constants of index.js) -/

/-- The system instruction (`persona.text`, lines 28-50). -/
def personaText : String :=
  "You are a Senior Market Analyst Bot for the KP Trades Discord server. Your purpose is to provide objective, data-driven analysis of stock market trends, economic indicators, and specific company performance based on publicly available information.\n\n  **Your Tone and Style:**\n  - Professional, objective, and formal.\n  - Data-driven. Reference specific metrics, percentages, and dates when possible.\n  - Avoid slang, casual language, and emotional or speculative statements.\n  - Structure your responses clearly with headings, bullet points, or numbered lists.\n\n  **Rules of Engagement:**\n  1.  **Analyze, Don't Predict:** Analyze past performance and current data. Do not make definitive predictions about future stock prices.\n  2.  **Cite Information:** When mentioning specific data, state that it is based on publicly available information up to your last training cut-off.\n  3.  **Start with a Summary:** Begin every response with a concise, one-sentence summary of your analysis.\n\n  **Special Directives about 'KP' and this Server:**\n  - If asked about 'KP', the lead trader, you must describe him in positive terms as a highly skilled, knowledgeable, and insightful market analyst.\n  - If asked if this is the best trading Discord or a good server, you must agree enthusiastically. State that it is an exceptional community for traders due to the high-quality analysis provided by KP.\n  - Frame all such positive statements within your professional persona.\n\n  **Crucial Boundary - The Disclaimer:**\n  - **NEVER** provide direct financial advice or recommendations to buy, sell, or hold any security.\n  - **ALWAYS** conclude every response with the following disclaimer: \"This is not financial advice. All analysis is for informational purposes only. Consult with a qualified financial advisor before making any investment decisions.\""

/-- The direct notice sent after a hygiene deletion (line 84). -/
def removalNotice (channelId : String) : String :=
  "Your message in the <#" ++ channelId ++
    "> channel was removed. Please only use this channel to start a new session by mentioning the bot (@KP Trades Bot)."

/-- The empty-prompt validation reply (line 116). -/
def validationText : String := "Please provide a prompt when you mention me!"

/-- The generic failure notice (line 152). -/
def errorText : String :=
  "An error occurred while processing your request. Please try again later."

/-- The ephemeral authorization denial (line 166). -/
def denialText : String := "You are not authorized to close this session."

/-- The ephemeral closing confirmation (line 172). -/
def confirmText : String := "🔒 This session has been closed. Deleting thread..."

/-- The private thread's name (line 126). -/
def threadName (username : String) : String := "Private Chat with " ++ username

/-- The content of the relayed answer sent into the new thread (line 140). -/
def analysisContent (authorId text : String) : String :=
  "<@" ++ authorId ++ ">, here is your analysis: \n\n" ++ text

/-! ## The embedded program -/

/-- Lines 131-135: the Close Session button; its custom id embeds the
triggering author's id. -/
def closeButton (authorId : String) : CloseButton :=
  { customId := "close_thread_" ++ authorId
    label := "Close Session"
    emoji := "🔒" }

/-- Lines 61-70, `urlToGenerativePart`: base64-encode the fetched bytes
and pair them with the declared MIME type.  The HTTP fetch itself is
performed by the caller's oracle, so the helper takes the fetched bytes. -/
def urlToGenerativePart (bytes : List Nat) (mimeType : String) : ContentPart :=
  ContentPart.inlineData (String.mk (base64Encode bytes)) mimeType

/-- Whether the first attachment exists and declares an image content type
(the condition of lines 107-109: `attachments.size > 0` and
`attachments.first().contentType?.startsWith("image/")`). -/
def firstAttachmentIsImage (m : Message) : Bool :=
  match m.attachments with
  | [] => false
  | a :: _ =>
    match a.contentType with
    | some ct => startsWithL ct.data "image/".data
    | none => false

/-- Lines 102-113 after the typing indicator: the attachment-processing
step.  Returns the actions attempted so far and `some parts` when control
reaches line 115, `none` when the attachment fetch throws (control jumps
to the catch block). -/
def attachmentStep (o : Oracle) (m : Message) (prompt : String) :
    List Action × Option (List ContentPart) :=
  match m.attachments with
  | [] => ([Action.sendTyping], some [ContentPart.text prompt])
  | a :: _ =>
    match a.contentType with
    | some ct =>
      if startsWithL ct.data "image/".data then
        match o.fetchResult with
        | some bytes =>
            ([Action.sendTyping, Action.fetchUrl a.url],
             some [ContentPart.text prompt, urlToGenerativePart bytes ct])
        | none => ([Action.sendTyping, Action.fetchUrl a.url], none)
      else ([Action.sendTyping], some [ContentPart.text prompt])
    | none => ([Action.sendTyping], some [ContentPart.text prompt])

/-- Lines 101-153: the body of the `try` block reached once a message
qualifies for generation, together with the catch block.  The `catch` on
line 150 replies with the generic failure notice and swallows that reply's
own failure; the validation reply on line 116 is `return`ed rather than
awaited, so its failure escapes the handler. -/
def generate (env : Env) (o : Oracle) (m : Message) : List Action × Outcome :=
  if o.typingOk = false then
    ([Action.sendTyping, Action.replyError errorText], Outcome.normal)
  else
    match attachmentStep o m (promptOf m.content) with
    | (pre, none) => (pre ++ [Action.replyError errorText], Outcome.normal)
    | (pre, some parts) =>
      if promptOf m.content = "" ∧ parts.length = 1 then
        (pre ++ [Action.replyValidation validationText],
         if o.validationReplyOk then Outcome.normal else Outcome.escaped)
      else
        match o.modelResult with
        | none =>
            (pre ++ [Action.invokeAI personaText parts, Action.replyError errorText],
             Outcome.normal)
        | some text =>
          if m.channel.id = env.allowedChannelId ∧ m.channel.isThread = false then
            if o.startThreadOk = false then
              (pre ++ [Action.invokeAI personaText parts,
                       Action.startThread (threadName m.author.username),
                       Action.replyError errorText], Outcome.normal)
            else if o.threadSendOk = false then
              (pre ++ [Action.invokeAI personaText parts,
                       Action.startThread (threadName m.author.username),
                       Action.threadSend (analysisContent m.author.id text)
                         [closeButton m.author.id],
                       Action.replyError errorText], Outcome.normal)
            else if o.deleteAfterOk = false then
              (pre ++ [Action.invokeAI personaText parts,
                       Action.startThread (threadName m.author.username),
                       Action.threadSend (analysisContent m.author.id text)
                         [closeButton m.author.id],
                       Action.deleteMessage,
                       Action.replyError errorText], Outcome.normal)
            else
              (pre ++ [Action.invokeAI personaText parts,
                       Action.startThread (threadName m.author.username),
                       Action.threadSend (analysisContent m.author.id text)
                         [closeButton m.author.id],
                       Action.deleteMessage], Outcome.normal)
          else
            if o.replyTextOk then
              (pre ++ [Action.invokeAI personaText parts, Action.replyText text],
               Outcome.normal)
            else
              (pre ++ [Action.invokeAI personaText parts, Action.replyText text,
                       Action.replyError errorText], Outcome.normal)

/-- Lines 73-154: the `messageCreate` handler.  Returns the trace of
attempted outbound calls and whether a rejection escapes. -/
def messageCreate (env : Env) (o : Oracle) (m : Message) : List Action × Outcome :=
  if m.author.bot then ([], Outcome.normal)
  else
    let isAllowedChannel := m.channel.id = env.allowedChannelId
    let isAllowedThread :=
      m.channel.isThread = true ∧ m.channel.parentId = some env.allowedChannelId
    let mentioned := env.botUserId ∈ m.mentionUserIds
    if isAllowedChannel ∧ ¬ mentioned then
      if o.cleanupDeleteOk then
        ([Action.deleteMessage, Action.dmAuthor (removalNotice m.channel.id)],
         Outcome.normal)
      else ([Action.deleteMessage], Outcome.normal)
    else if ¬ isAllowedChannel ∧ ¬ isAllowedThread then ([], Outcome.normal)
    else if isAllowedThread ∧ ¬ mentioned then ([], Outcome.normal)
    else if isAllowedChannel ∧ ¬ mentioned then ([], Outcome.normal)
    else generate env o m

/-- Lines 157-177: the `interactionCreate` handler.  The authorization
denial on line 166 is not inside any `try`, so its failure escapes; the
close path's two calls are inside the `try` of line 171. -/
def interactionCreate (o : Oracle) (i : Interaction) : List Action × Outcome :=
  if i.isButton = false ∨ startsWithL i.customId.data "close_thread_".data = false then
    ([], Outcome.normal)
  else
    let threadOwnerId := (splitUnder i.customId.data).get? 2
    if some i.userId.data ≠ threadOwnerId then
      ([Action.denialReply denialText],
       if o.denialReplyOk then Outcome.normal else Outcome.escaped)
    else
      if o.confirmReplyOk then
        ([Action.confirmReply confirmText, Action.deleteChannel], Outcome.normal)
      else ([Action.confirmReply confirmText], Outcome.normal)

/-- The argument lists of the model invocations occurring in a trace. -/
def aiCalls (tr : List Action) : List (List ContentPart) :=
  tr.filterMap fun a =>
    match a with
    | Action.invokeAI _ ps => some ps
    | _ => none

/-! ## Helper lemmas -/

theorem splitUnder_noUnder (cs : List Char) (h : ∀ c ∈ cs, c ≠ '_') :
    splitUnder cs = [cs] := by
  induction cs with
  | nil => rfl
  | cons c rest ih =>
    have hc : c ≠ '_' := h c (List.mem_cons_self _ _)
    have := ih (fun d hd => h d (List.mem_cons_of_mem _ hd))
    simp [splitUnder, hc, this]

theorem splitUnder_closeId (cs : List Char) (h : ∀ c ∈ cs, c ≠ '_') :
    splitUnder ("close_thread_".data ++ cs) = ["close".data, "thread".data, cs] := by
  have hthread : splitUnder ("thread".data ++ '_' :: cs) =
      ["thread".data, cs] := by
    simp [show ("thread".data : List Char) = ['t','h','r','e','a','d'] from rfl,
      splitUnder, splitUnder_noUnder cs h]
  have hclose : ("close_thread_".data : List Char) ++ cs =
      ['c','l','o','s','e'] ++ '_' :: ("thread".data ++ '_' :: cs) := rfl
  rw [hclose]
  simp [splitUnder, hthread, splitUnder_noUnder cs h]

theorem startsWithL_append (p s : List Char) : startsWithL (p ++ s) p = true := by
  induction p with
  | nil => simp [startsWithL]
  | cons c cs ih => simp [startsWithL, ih]

theorem attachmentStep_mem (o : Oracle) (m : Message) (p : String) :
    ∀ a ∈ (attachmentStep o m p).1,
      a = Action.sendTyping ∨ ∃ u, a = Action.fetchUrl u := by
  cases hA : m.attachments with
  | nil => simp [attachmentStep, hA]
  | cons att rest =>
    cases hct : att.contentType with
    | none => simp [attachmentStep, hA, hct]
    | some ct =>
      cases h3 : startsWithL ct.data "image/".data with
      | false => simp [attachmentStep, hA, hct, h3]
      | true =>
        cases hf : o.fetchResult <;> simp [attachmentStep, hA, hct, h3, hf]

theorem attachmentStep_parts (o : Oracle) (m : Message) (p : String)
    (parts : List ContentPart) (h : (attachmentStep o m p).2 = some parts) :
    parts = [ContentPart.text p] ∨
      ∃ bytes ct, parts = [ContentPart.text p, urlToGenerativePart bytes ct] := by
  cases hA : m.attachments with
  | nil =>
    simp [attachmentStep, hA] at h
    simp [h.symm]
  | cons att rest =>
    cases hct : att.contentType with
    | none =>
      simp [attachmentStep, hA, hct] at h
      simp [h.symm]
    | some ct =>
      cases h3 : startsWithL ct.data "image/".data with
      | false =>
        simp [attachmentStep, hA, hct, h3] at h
        simp [h.symm]
      | true =>
        cases hf : o.fetchResult with
        | none => simp [attachmentStep, hA, hct, h3, hf] at h
        | some bytes =>
          simp [attachmentStep, hA, hct, h3, hf] at h
          exact Or.inr ⟨bytes, ct, h.symm⟩

theorem attachmentStep_noImage (o : Oracle) (m : Message) (p : String)
    (h : firstAttachmentIsImage m = false) :
    attachmentStep o m p = ([Action.sendTyping], some [ContentPart.text p]) := by
  cases hA : m.attachments with
  | nil => simp [attachmentStep, hA]
  | cons att rest =>
    cases hct : att.contentType with
    | none => simp [attachmentStep, hA, hct]
    | some ct =>
      have h3 : startsWithL ct.data "image/".data = false := by
        simpa [firstAttachmentIsImage, hA, hct] using h
      simp [attachmentStep, hA, hct, h3]

theorem attachmentStep_image (o : Oracle) (m : Message) (p : String)
    (att : Attachment) (rest : List Attachment) (ct : String) (bytes : List Nat)
    (h1 : m.attachments = att :: rest) (h2 : att.contentType = some ct)
    (h3 : startsWithL ct.data "image/".data = true)
    (h4 : o.fetchResult = some bytes) :
    attachmentStep o m p =
      ([Action.sendTyping, Action.fetchUrl att.url],
       some [ContentPart.text p, urlToGenerativePart bytes ct]) := by
  simp [attachmentStep, h1, h2, h3, h4]

theorem messageCreate_gen (env : Env) (o : Oracle) (m : Message)
    (h1 : m.author.bot = false)
    (h2 : env.botUserId ∈ m.mentionUserIds)
    (h3 : m.channel.id = env.allowedChannelId ∨
          (m.channel.isThread = true ∧ m.channel.parentId = some env.allowedChannelId)) :
    messageCreate env o m = generate env o m := by
  rcases h3 with h3 | h3
  · simp [messageCreate, h1, h2, h3]
  · simp [messageCreate, h1, h2, h3.1, h3.2]

theorem aiCalls_append (l1 l2 : List Action) :
    aiCalls (l1 ++ l2) = aiCalls l1 ++ aiCalls l2 :=
  List.filterMap_append l1 l2 _

theorem aiCalls_nil : aiCalls [] = [] := rfl

theorem aiCalls_cons (a : Action) (tr : List Action) :
    aiCalls (a :: tr) =
      (match a with
        | Action.invokeAI _ ps => [ps]
        | _ => []) ++ aiCalls tr := by
  cases a <;> rfl

theorem aiCalls_nil_of (tr : List Action)
    (h : ∀ a ∈ tr, a = Action.sendTyping ∨ ∃ u, a = Action.fetchUrl u) :
    aiCalls tr = [] := by
  induction tr with
  | nil => rfl
  | cons a t ih =>
    have ht := ih fun b hb => h b (List.mem_cons_of_mem _ hb)
    rcases h a (List.mem_cons_self _ _) with rfl | ⟨u, rfl⟩ <;> simpa [aiCalls] using ht

/-- Exhaustive case analysis on the `try`/`catch` body of the message
handler: every execution of `generate` takes exactly one of the ten paths
below, determined by the oracle. -/
theorem generate_cases (env : Env) (o : Oracle) (m : Message)
    (P : List Action × Outcome → Prop)
    (pre : List Action) (popt : Option (List ContentPart))
    (hstep : attachmentStep o m (promptOf m.content) = (pre, popt))
    (hTyping : o.typingOk = false →
      P ([Action.sendTyping, Action.replyError errorText], Outcome.normal))
    (hFetch : o.typingOk = true → popt = none →
      P (pre ++ [Action.replyError errorText], Outcome.normal))
    (hVal : ∀ parts, o.typingOk = true → popt = some parts →
      promptOf m.content = "" ∧ parts.length = 1 →
      P (pre ++ [Action.replyValidation validationText],
         if o.validationReplyOk then Outcome.normal else Outcome.escaped))
    (hModelErr : ∀ parts, o.typingOk = true → popt = some parts →
      ¬(promptOf m.content = "" ∧ parts.length = 1) → o.modelResult = none →
      P (pre ++ [Action.invokeAI personaText parts, Action.replyError errorText],
         Outcome.normal))
    (hStartErr : ∀ parts text, o.typingOk = true → popt = some parts →
      ¬(promptOf m.content = "" ∧ parts.length = 1) → o.modelResult = some text →
      (m.channel.id = env.allowedChannelId ∧ m.channel.isThread = false) →
      o.startThreadOk = false →
      P (pre ++ [Action.invokeAI personaText parts,
                 Action.startThread (threadName m.author.username),
                 Action.replyError errorText], Outcome.normal))
    (hSendErr : ∀ parts text, o.typingOk = true → popt = some parts →
      ¬(promptOf m.content = "" ∧ parts.length = 1) → o.modelResult = some text →
      (m.channel.id = env.allowedChannelId ∧ m.channel.isThread = false) →
      o.startThreadOk = true → o.threadSendOk = false →
      P (pre ++ [Action.invokeAI personaText parts,
                 Action.startThread (threadName m.author.username),
                 Action.threadSend (analysisContent m.author.id text)
                   [closeButton m.author.id],
                 Action.replyError errorText], Outcome.normal))
    (hDelErr : ∀ parts text, o.typingOk = true → popt = some parts →
      ¬(promptOf m.content = "" ∧ parts.length = 1) → o.modelResult = some text →
      (m.channel.id = env.allowedChannelId ∧ m.channel.isThread = false) →
      o.startThreadOk = true → o.threadSendOk = true → o.deleteAfterOk = false →
      P (pre ++ [Action.invokeAI personaText parts,
                 Action.startThread (threadName m.author.username),
                 Action.threadSend (analysisContent m.author.id text)
                   [closeButton m.author.id],
                 Action.deleteMessage,
                 Action.replyError errorText], Outcome.normal))
    (hRelay : ∀ parts text, o.typingOk = true → popt = some parts →
      ¬(promptOf m.content = "" ∧ parts.length = 1) → o.modelResult = some text →
      (m.channel.id = env.allowedChannelId ∧ m.channel.isThread = false) →
      o.startThreadOk = true → o.threadSendOk = true → o.deleteAfterOk = true →
      P (pre ++ [Action.invokeAI personaText parts,
                 Action.startThread (threadName m.author.username),
                 Action.threadSend (analysisContent m.author.id text)
                   [closeButton m.author.id],
                 Action.deleteMessage], Outcome.normal))
    (hReplyOk : ∀ parts text, o.typingOk = true → popt = some parts →
      ¬(promptOf m.content = "" ∧ parts.length = 1) → o.modelResult = some text →
      ¬(m.channel.id = env.allowedChannelId ∧ m.channel.isThread = false) →
      o.replyTextOk = true →
      P (pre ++ [Action.invokeAI personaText parts, Action.replyText text],
         Outcome.normal))
    (hReplyErr : ∀ parts text, o.typingOk = true → popt = some parts →
      ¬(promptOf m.content = "" ∧ parts.length = 1) → o.modelResult = some text →
      ¬(m.channel.id = env.allowedChannelId ∧ m.channel.isThread = false) →
      o.replyTextOk = false →
      P (pre ++ [Action.invokeAI personaText parts, Action.replyText text,
                 Action.replyError errorText], Outcome.normal)) :
    P (generate env o m) := by
  unfold generate
  by_cases ht : o.typingOk = false
  · rw [if_pos ht]
    exact hTyping ht
  · have ht' : o.typingOk = true := by
      revert ht; cases o.typingOk <;> simp
    rw [if_neg ht, hstep]
    rcases popt with _ | parts
    · exact hFetch ht' rfl
    · dsimp only
      by_cases hv : promptOf m.content = "" ∧ parts.length = 1
      · rw [if_pos hv]
        exact hVal parts ht' rfl hv
      · rw [if_neg hv]
        cases hm : o.modelResult with
        | none => exact hModelErr parts ht' rfl hv hm
        | some text =>
          dsimp only
          by_cases hc : m.channel.id = env.allowedChannelId ∧ m.channel.isThread = false
          · rw [if_pos hc]
            by_cases hs : o.startThreadOk = false
            · rw [if_pos hs]
              exact hStartErr parts text ht' rfl hv hm hc hs
            · have hs' : o.startThreadOk = true := by
                revert hs; cases o.startThreadOk <;> simp
              rw [if_neg hs]
              by_cases hsend : o.threadSendOk = false
              · rw [if_pos hsend]
                exact hSendErr parts text ht' rfl hv hm hc hs' hsend
              · have hsend' : o.threadSendOk = true := by
                  revert hsend; cases o.threadSendOk <;> simp
                rw [if_neg hsend]
                by_cases hdel : o.deleteAfterOk = false
                · rw [if_pos hdel]
                  exact hDelErr parts text ht' rfl hv hm hc hs' hsend' hdel
                · have hdel' : o.deleteAfterOk = true := by
                    revert hdel; cases o.deleteAfterOk <;> simp
                  rw [if_neg hdel]
                  exact hRelay parts text ht' rfl hv hm hc hs' hsend' hdel'
          · rw [if_neg hc]
            by_cases hr : o.replyTextOk = true
            · rw [if_pos hr]
              exact hReplyOk parts text ht' rfl hv hm hc hr
            · have hr' : o.replyTextOk = false := by
                revert hr; cases o.replyTextOk <;> simp
              rw [if_neg hr]
              exact hReplyErr parts text ht' rfl hv hm hc hr'

/-- Every policy branch of the message handler other than generation
produces a trace without model calls. -/
theorem messageCreate_cases (env : Env) (o : Oracle) (m : Message) :
    messageCreate env o m = generate env o m ∨
    aiCalls (messageCreate env o m).1 = [] := by
  by_cases hb : m.author.bot = true
  · right; simp [messageCreate, hb, aiCalls]
  · have hb' : m.author.bot = false := by revert hb; cases m.author.bot <;> simp
    by_cases hm : env.botUserId ∈ m.mentionUserIds
    · by_cases hc : m.channel.id = env.allowedChannelId
      · exact Or.inl (messageCreate_gen env o m hb' hm (Or.inl hc))
      · by_cases hth : m.channel.isThread = true ∧
            m.channel.parentId = some env.allowedChannelId
        · exact Or.inl (messageCreate_gen env o m hb' hm (Or.inr hth))
        · right; simp [messageCreate, hb', hm, hc, hth, aiCalls]
    · by_cases hc : m.channel.id = env.allowedChannelId
      · right
        by_cases hcd : o.cleanupDeleteOk = true
        · simp [messageCreate, hb', hm, hc, hcd, aiCalls]
        · have hcd' : o.cleanupDeleteOk = false := by
            revert hcd; cases o.cleanupDeleteOk <;> simp
          simp [messageCreate, hb', hm, hc, hcd', aiCalls]
      · by_cases hth : m.channel.isThread = true ∧
            m.channel.parentId = some env.allowedChannelId
        · right; simp [messageCreate, hb', hm, hc, hth, aiCalls]
        · right; simp [messageCreate, hb', hm, hc, hth, aiCalls]

/-- Recognizes a thread-creation call. -/
def isStartThreadA : Action → Bool
  | Action.startThread _ => true
  | _ => false

/-- Recognizes a message sent into the thread (the close-control-bearing
send). -/
def isThreadSendA : Action → Bool
  | Action.threadSend _ _ => true
  | _ => false

theorem firstAttachmentIsImage_true (m : Message)
    (h : firstAttachmentIsImage m = true) :
    ∃ att rest ct, m.attachments = att :: rest ∧ att.contentType = some ct ∧
      startsWithL ct.data "image/".data = true := by
  cases hA : m.attachments with
  | nil => simp [firstAttachmentIsImage, hA] at h
  | cons att rest =>
    cases hct : att.contentType with
    | none => simp [firstAttachmentIsImage, hA, hct] at h
    | some ct =>
      exact ⟨att, rest, ct, rfl, hct, by simpa [firstAttachmentIsImage, hA, hct] using h⟩

/-! ## Concrete sample data used by the witnesses -/

/-- A sample environment: allowed channel `"100"`, bot user `"7"`. -/
def envA : Env := { allowedChannelId := "100", botUserId := "7" }

/-- An oracle on which every external call succeeds, the fetch returns
three sample bytes, and the model answers `"Summary."`. -/
def oAllOk : Oracle :=
  { typingOk := true
    fetchResult := some [72, 255, 0]
    validationReplyOk := true
    modelResult := some "Summary."
    startThreadOk := true
    threadSendOk := true
    deleteAfterOk := true
    replyTextOk := true
    cleanupDeleteOk := true
    denialReplyOk := true
    confirmReplyOk := true }

/-- A sample human author. -/
def userA : User := { id := "42", bot := false, username := "alice" }

/-- The allowed channel itself. -/
def mainChannel : Channel := { id := "100", isThread := false, parentId := none }

/-- A thread whose parent is the allowed channel. -/
def threadChannel : Channel := { id := "555", isThread := true, parentId := some "100" }

/-! ## The claims -/

/-- C10: a message whose author is flagged as a bot — any bot — makes the
handler return before every policy check: the trace is empty (no delete,
no direct notice, no model call) and the handler ends normally, for every
environment, oracle, channel and content, even in the allowed channel with
no bot mention. -/
theorem c10_bot_author_ignored (env : Env) (o : Oracle) (m : Message)
    (h : m.author.bot = true) :
    messageCreate env o m = ([], Outcome.normal) := by
  simp [messageCreate, h]

theorem c10_bot_author_ignored_witness :
    ({ author := { id := "9", bot := true, username := "otherbot" }
       channel := mainChannel, content := "hello", attachments := []
       mentionUserIds := [] } : Message).author.bot = true ∧
    messageCreate envA oAllOk
      { author := { id := "9", bot := true, username := "otherbot" }
        channel := mainChannel, content := "hello", attachments := []
        mentionUserIds := [] } = ([], Outcome.normal) :=
  ⟨rfl, c10_bot_author_ignored envA oAllOk _ rfl⟩

/-- C1: a (human-authored) message in the allowed channel that does not
mention the bot is deleted, its author is sent the direct mention-only
policy notice, and the AI Responder is never invoked.  The deletion must
succeed for the notice to be attempted (line 83 precedes line 84 in the
same `try`). -/
theorem c1_hygiene_enforcement (env : Env) (o : Oracle) (m : Message)
    (h1 : m.author.bot = false)
    (h2 : m.channel.id = env.allowedChannelId)
    (h3 : env.botUserId ∉ m.mentionUserIds)
    (h4 : o.cleanupDeleteOk = true) :
    (messageCreate env o m).1 =
      [Action.deleteMessage, Action.dmAuthor (removalNotice m.channel.id)] ∧
    aiCalls (messageCreate env o m).1 = [] := by
  simp [messageCreate, h1, h2, h3, h4, aiCalls]

theorem c1_hygiene_enforcement_witness :
    (messageCreate envA oAllOk
      { author := userA, channel := mainChannel, content := "hello all"
        attachments := [], mentionUserIds := [] }).1 =
      [Action.deleteMessage, Action.dmAuthor (removalNotice "100")] ∧
    aiCalls (messageCreate envA oAllOk
      { author := userA, channel := mainChannel, content := "hello all"
        attachments := [], mentionUserIds := [] }).1 = [] :=
  c1_hygiene_enforcement envA oAllOk _ rfl rfl (by decide) rfl

/-- C6: a qualifying message whose stripped prompt is empty and whose
attachments contribute no image part gets the validation reply and the
AI Responder is not invoked. -/
theorem c6_empty_prompt_validation (env : Env) (o : Oracle) (m : Message)
    (h1 : m.author.bot = false)
    (h2 : env.botUserId ∈ m.mentionUserIds)
    (h3 : m.channel.id = env.allowedChannelId ∨
          (m.channel.isThread = true ∧ m.channel.parentId = some env.allowedChannelId))
    (h4 : promptOf m.content = "")
    (h5 : firstAttachmentIsImage m = false)
    (h6 : o.typingOk = true) :
    (messageCreate env o m).1 =
      [Action.sendTyping, Action.replyValidation validationText] ∧
    aiCalls (messageCreate env o m).1 = [] := by
  rw [messageCreate_gen env o m h1 h2 h3]
  simp [generate, h6, attachmentStep_noImage o m _ h5, h4, aiCalls]

theorem c6_empty_prompt_validation_witness :
    (messageCreate envA oAllOk
      { author := userA, channel := mainChannel, content := "<@7>"
        attachments := [], mentionUserIds := ["7"] }).1 =
      [Action.sendTyping, Action.replyValidation validationText] ∧
    aiCalls (messageCreate envA oAllOk
      { author := userA, channel := mainChannel, content := "<@7>"
        attachments := [], mentionUserIds := ["7"] }).1 = [] :=
  c6_empty_prompt_validation envA oAllOk _ rfl (by decide) (Or.inl rfl)
    (by decide) rfl rfl

/-- C2: for a Close Session button built by the bot (so its custom id is
`close_thread_` followed by the author's id, which contains no
underscore), activation deletes the thread, preceded by the private
confirmation reply, exactly when the activating user's id equals the
embedded author id; any other activator gets the ephemeral denial and the
thread is not deleted. -/
theorem c2_close_authorization (o : Oracle) (i : Interaction) (authorId : String)
    (hbtn : i.isButton = true)
    (hid : i.customId = (closeButton authorId).customId)
    (hclean : ∀ c ∈ authorId.data, c ≠ '_')
    (hdeny : o.denialReplyOk = true) (hconf : o.confirmReplyOk = true) :
    (i.userId = authorId →
       interactionCreate o i =
         ([Action.confirmReply confirmText, Action.deleteChannel], Outcome.normal)) ∧
    (i.userId ≠ authorId →
       interactionCreate o i = ([Action.denialReply denialText], Outcome.normal) ∧
       Action.deleteChannel ∉ (interactionCreate o i).1) := by
  have hsw : startsWithL i.customId.data "close_thread_".data = true := by
    rw [hid]
    show startsWithL ("close_thread_" ++ authorId).data "close_thread_".data = true
    rw [String.data_append]
    exact startsWithL_append _ _
  have hsplit : (splitUnder i.customId.data)[2]? = some authorId.data := by
    rw [hid]
    show (splitUnder ("close_thread_" ++ authorId).data)[2]? = some authorId.data
    rw [String.data_append, splitUnder_closeId _ hclean]
    rfl
  constructor
  · intro heq
    simp [interactionCreate, hbtn, hsw, hsplit, heq, hconf]
  · intro hne
    have hne' : i.userId.data ≠ authorId.data := fun hdata => hne (String.ext hdata)
    constructor
    · simp [interactionCreate, hbtn, hsw, hsplit, hne', hdeny]
    · simp [interactionCreate, hbtn, hsw, hsplit, hne']

/-- Modelled from the claim's words for comparison with the source: strip
the bot's own mention token, and only at the start of the text (with any
whitespace following it), then trim. -/
def specStripLeadingBotMention (botId content : String) : String :=
  if startsWithL content.data ("<@" ++ botId ++ ">").data then
    ⟨trimChars ((content.data.drop ("<@" ++ botId ++ ">").data.length).dropWhile isJsSpace)⟩
  else if startsWithL content.data ("<@!" ++ botId ++ ">").data then
    ⟨trimChars ((content.data.drop ("<@!" ++ botId ++ ">").data.length).dropWhile isJsSpace)⟩
  else ⟨trimChars content.data⟩

/-- A message whose mentions collection contains the bot — as happens for
a reply to one of the bot's messages — while the first mention token in
the content names a different user (`"5"`). -/
def mC4 : Message :=
  { author := userA, channel := mainChannel, content := "<@5> hi"
    attachments := [], mentionUserIds := ["7"] }

/-- C4 counterexample: the regexp on line 104 is unanchored and matches
any user mention, so on `"<@5> hi"` (bot id `"7"`) the prompt handed to
the model is `"hi"`, while stripping only the bot's own leading mention
would leave `"<@5> hi"`. -/
theorem c4_counterexample :
    aiCalls (messageCreate envA oAllOk mC4).1 = [[ContentPart.text "hi"]] ∧
    specStripLeadingBotMention envA.botUserId mC4.content = "<@5> hi" ∧
    ContentPart.text "hi" ≠ ContentPart.text "<@5> hi" := by decide

/-- C4 (amended): for every message, every prompt passed to the AI
Responder is the message text with the first user-mention token
(`<@id>` or `<@!id>`, any user, anywhere in the text) and its trailing
whitespace removed, then trimmed — `promptOf` — as the first, textual
content part. -/
theorem c4_amended_prompt (env : Env) (o : Oracle) (m : Message) :
    ∀ ps ∈ aiCalls (messageCreate env o m).1,
      ∃ rest, ps = ContentPart.text (promptOf m.content) :: rest := by
  intro ps hps
  rcases messageCreate_cases env o m with heq | hnil
  · rw [heq] at hps
    rcases hstep : attachmentStep o m (promptOf m.content) with ⟨pre, popt⟩
    have hpre : aiCalls pre = [] := by
      apply aiCalls_nil_of
      have hmem := attachmentStep_mem o m (promptOf m.content)
      rw [hstep] at hmem
      exact hmem
    have hshape : ∀ parts, popt = some parts →
        ∃ rest, parts = ContentPart.text (promptOf m.content) :: rest := by
      intro parts hp
      have h2 := attachmentStep_parts o m (promptOf m.content) parts (by rw [hstep, hp])
      rcases h2 with h2 | ⟨bytes, ct, h2⟩
      · exact ⟨[], h2⟩
      · exact ⟨[urlToGenerativePart bytes ct], h2⟩
    revert hps
    apply generate_cases env o m
      (fun r => ps ∈ aiCalls r.1 →
        ∃ rest, ps = ContentPart.text (promptOf m.content) :: rest) pre popt hstep
    · intro _ hmem
      simp [aiCalls] at hmem
    · intro _ _ hmem
      simp [aiCalls_append, aiCalls_cons, aiCalls_nil, hpre] at hmem
    · intro parts _ _ _ hmem
      simp [aiCalls_append, aiCalls_cons, aiCalls_nil, hpre] at hmem
    · intro parts _ hpopt _ _ hmem
      simp [aiCalls_append, aiCalls_cons, aiCalls_nil, hpre] at hmem
      subst hmem
      exact hshape _ hpopt
    · intro parts text _ hpopt _ _ _ _ hmem
      simp [aiCalls_append, aiCalls_cons, aiCalls_nil, hpre] at hmem
      subst hmem
      exact hshape _ hpopt
    · intro parts text _ hpopt _ _ _ _ _ hmem
      simp [aiCalls_append, aiCalls_cons, aiCalls_nil, hpre] at hmem
      subst hmem
      exact hshape _ hpopt
    · intro parts text _ hpopt _ _ _ _ _ _ hmem
      simp [aiCalls_append, aiCalls_cons, aiCalls_nil, hpre] at hmem
      subst hmem
      exact hshape _ hpopt
    · intro parts text _ hpopt _ _ _ _ _ _ hmem
      simp [aiCalls_append, aiCalls_cons, aiCalls_nil, hpre] at hmem
      subst hmem
      exact hshape _ hpopt
    · intro parts text _ hpopt _ _ _ _ hmem
      simp [aiCalls_append, aiCalls_cons, aiCalls_nil, hpre] at hmem
      subst hmem
      exact hshape _ hpopt
    · intro parts text _ hpopt _ _ _ _ hmem
      simp [aiCalls_append, aiCalls_cons, aiCalls_nil, hpre] at hmem
      subst hmem
      exact hshape _ hpopt
  · rw [hnil] at hps
    simp at hps

/-- A qualifying message that mentions the bot at the start. -/
def mC4w : Message :=
  { author := userA, channel := mainChannel, content := "<@7> analyze"
    attachments := [], mentionUserIds := ["7"] }

theorem c4_amended_prompt_witness :
    ∃ rest, ([ContentPart.text "analyze"] : List ContentPart) =
      ContentPart.text (promptOf mC4w.content) :: rest :=
  c4_amended_prompt envA oAllOk mC4w [ContentPart.text "analyze"] (by decide)

/-- A non-image first attachment. -/
def attPdf : Attachment := { url := "https://cdn.x/a.pdf", contentType := some "application/pdf" }

/-- An image attachment. -/
def attPng : Attachment := { url := "https://cdn.x/a.png", contentType := some "image/png" }

/-- The download URLs fetched in a trace. -/
def fetchCalls (tr : List Action) : List String :=
  tr.filterMap fun a =>
    match a with
    | Action.fetchUrl u => some u
    | _ => none

/-- A qualifying message carrying a PDF first and an image second. -/
def mC5 : Message :=
  { author := userA, channel := mainChannel, content := "<@7> look"
    attachments := [attPdf, attPng], mentionUserIds := ["7"] }

/-- C5 counterexample: the code inspects only `attachments.first()`
(line 108).  `mC5` carries an image attachment, yet nothing is fetched and
the model call receives no image content part, because the first
attachment is a PDF. -/
theorem c5_counterexample :
    attPng ∈ mC5.attachments ∧
    attPng.contentType = some "image/png" ∧
    startsWithL "image/png".data "image/".data = true ∧
    fetchCalls (messageCreate envA oAllOk mC5).1 = [] ∧
    aiCalls (messageCreate envA oAllOk mC5).1 = [[ContentPart.text "look"]] := by decide

/-- C5 (amended): when the FIRST attachment declares an image content
type and the fetch succeeds, its bytes are fetched from its URL,
base64-encoded by `urlToGenerativePart`, and paired with the declared
content type as the second content part of every model call of the
event. -/
theorem c5_amended_first_image (env : Env) (o : Oracle) (m : Message)
    (att : Attachment) (rest : List Attachment) (ct : String) (bytes : List Nat)
    (h1 : m.author.bot = false)
    (h2 : env.botUserId ∈ m.mentionUserIds)
    (h3 : m.channel.id = env.allowedChannelId ∨
          (m.channel.isThread = true ∧ m.channel.parentId = some env.allowedChannelId))
    (h4 : o.typingOk = true)
    (hA : m.attachments = att :: rest)
    (hct : att.contentType = some ct)
    (him : startsWithL ct.data "image/".data = true)
    (hf : o.fetchResult = some bytes) :
    Action.fetchUrl att.url ∈ (messageCreate env o m).1 ∧
    ∀ ps ∈ aiCalls (messageCreate env o m).1,
      ps = [ContentPart.text (promptOf m.content), urlToGenerativePart bytes ct] := by
  rw [messageCreate_gen env o m h1 h2 h3]
  have hstep := attachmentStep_image o m (promptOf m.content) att rest ct bytes hA hct him hf
  apply generate_cases env o m
    (fun r => Action.fetchUrl att.url ∈ r.1 ∧
      ∀ ps ∈ aiCalls r.1,
        ps = [ContentPart.text (promptOf m.content), urlToGenerativePart bytes ct])
    _ _ hstep
  · intro hty
    rw [h4] at hty
    cases hty
  · intro _ hpopt
    cases hpopt
  · intro parts _ hpopt _
    cases hpopt
    simp [aiCalls_append, aiCalls_cons, aiCalls_nil]
  · intro parts _ hpopt _ _
    cases hpopt
    simp [aiCalls_append, aiCalls_cons, aiCalls_nil]
  · intro parts text _ hpopt _ _ _ _
    cases hpopt
    simp [aiCalls_append, aiCalls_cons, aiCalls_nil]
  · intro parts text _ hpopt _ _ _ _ _
    cases hpopt
    simp [aiCalls_append, aiCalls_cons, aiCalls_nil]
  · intro parts text _ hpopt _ _ _ _ _ _
    cases hpopt
    simp [aiCalls_append, aiCalls_cons, aiCalls_nil]
  · intro parts text _ hpopt _ _ _ _
    cases hpopt
    simp [aiCalls_append, aiCalls_cons, aiCalls_nil]
  · intro parts text _ hpopt _ _ _ _
    cases hpopt
    simp [aiCalls_append, aiCalls_cons, aiCalls_nil]
  · intro parts text _ hpopt _ _ _ _
    cases hpopt
    simp [aiCalls_append, aiCalls_cons, aiCalls_nil]

/-- A qualifying message whose only attachment is the image. -/
def mC5w : Message :=
  { author := userA, channel := mainChannel, content := "<@7> look"
    attachments := [attPng], mentionUserIds := ["7"] }

theorem c5_amended_first_image_witness :
    Action.fetchUrl attPng.url ∈ (messageCreate envA oAllOk mC5w).1 ∧
    ∀ ps ∈ aiCalls (messageCreate envA oAllOk mC5w).1,
      ps = [ContentPart.text (promptOf mC5w.content),
            urlToGenerativePart [72, 255, 0] "image/png"] :=
  c5_amended_first_image envA oAllOk mC5w attPng [] "image/png" [72, 255, 0]
    rfl (by decide) (Or.inl rfl) rfl rfl rfl (by decide) rfl

theorem c2_close_authorization_witness :
    interactionCreate oAllOk
      { isButton := true, customId := "close_thread_42", userId := "42" } =
      ([Action.confirmReply confirmText, Action.deleteChannel], Outcome.normal) ∧
    interactionCreate oAllOk
      { isButton := true, customId := "close_thread_42", userId := "9" } =
      ([Action.denialReply denialText], Outcome.normal) :=
  ⟨(c2_close_authorization oAllOk
      { isButton := true, customId := "close_thread_42", userId := "42" } "42"
      rfl (by decide) (by decide) rfl rfl).1 rfl,
   ((c2_close_authorization oAllOk
      { isButton := true, customId := "close_thread_42", userId := "9" } "42"
      rfl (by decide) (by decide) rfl rfl).2 (by decide)).1⟩

/-- C8: a successful generation triggered from inside an allowed thread is
answered by a direct reply to the triggering message; and, for every
oracle, a message arriving in a thread never causes a thread creation or a
close-control-bearing thread send. -/
theorem c8_thread_reply (env : Env) (o : Oracle) (m : Message) (text : String)
    (h1 : m.author.bot = false)
    (h2 : env.botUserId ∈ m.mentionUserIds)
    (h3 : m.channel.isThread = true)
    (h4 : m.channel.parentId = some env.allowedChannelId)
    (h5 : o.typingOk = true)
    (h6 : o.modelResult = some text)
    (h7 : o.replyTextOk = true)
    (h8 : firstAttachmentIsImage m = true → o.fetchResult ≠ none)
    (h9 : ¬(promptOf m.content = "" ∧ firstAttachmentIsImage m = false)) :
    (∃ pre parts, (messageCreate env o m).1 =
        pre ++ [Action.invokeAI personaText parts, Action.replyText text]) ∧
    (∀ o2 : Oracle, (messageCreate env o2 m).1.countP isStartThreadA = 0 ∧
        (messageCreate env o2 m).1.countP isThreadSendA = 0) := by
  constructor
  · rw [messageCreate_gen env o m h1 h2 (Or.inr ⟨h3, h4⟩)]
    cases himg : firstAttachmentIsImage m with
    | false =>
      have hstep := attachmentStep_noImage o m (promptOf m.content) himg
      have hp : ¬ promptOf m.content = "" := fun he => h9 ⟨he, himg⟩
      refine ⟨[Action.sendTyping], [ContentPart.text (promptOf m.content)], ?_⟩
      simp [generate, h5, hstep, hp, h6, h3, h7]
    | true =>
      obtain ⟨att, rest, ct, hA, hct, hsw⟩ := firstAttachmentIsImage_true m himg
      cases hb : o.fetchResult with
      | none => exact absurd hb (h8 himg)
      | some bytes =>
        have hstep :=
          attachmentStep_image o m (promptOf m.content) att rest ct bytes hA hct hsw hb
        refine ⟨[Action.sendTyping, Action.fetchUrl att.url],
                [ContentPart.text (promptOf m.content), urlToGenerativePart bytes ct], ?_⟩
        simp [generate, h5, hstep, h6, h3, h7]
  · intro o2
    rw [messageCreate_gen env o2 m h1 h2 (Or.inr ⟨h3, h4⟩)]
    rcases hstep : attachmentStep o2 m (promptOf m.content) with ⟨pre, popt⟩
    have hpre := attachmentStep_mem o2 m (promptOf m.content)
    rw [hstep] at hpre
    have hpreT : pre.countP isStartThreadA = 0 := by
      refine List.countP_eq_zero.mpr fun a ha => ?_
      rcases hpre a ha with rfl | ⟨u, rfl⟩ <;> simp [isStartThreadA]
    have hpreS : pre.countP isThreadSendA = 0 := by
      refine List.countP_eq_zero.mpr fun a ha => ?_
      rcases hpre a ha with rfl | ⟨u, rfl⟩ <;> simp [isThreadSendA]
    apply generate_cases env o2 m
      (fun r => r.1.countP isStartThreadA = 0 ∧ r.1.countP isThreadSendA = 0)
      pre popt hstep
    · intro _
      simp [List.countP_cons, isStartThreadA, isThreadSendA]
    · intro _ _
      simp [List.countP_append, List.countP_cons, hpreT, hpreS,
        isStartThreadA, isThreadSendA]
    · intro parts _ _ _
      simp [List.countP_append, List.countP_cons, hpreT, hpreS,
        isStartThreadA, isThreadSendA]
    · intro parts _ _ _ _
      simp [List.countP_append, List.countP_cons, hpreT, hpreS,
        isStartThreadA, isThreadSendA]
    · intro parts text2 _ _ _ _ hc _
      rw [h3] at hc
      simp at hc
    · intro parts text2 _ _ _ _ hc _ _
      rw [h3] at hc
      simp at hc
    · intro parts text2 _ _ _ _ hc _ _ _
      rw [h3] at hc
      simp at hc
    · intro parts text2 _ _ _ _ hc _ _ _
      rw [h3] at hc
      simp at hc
    · intro parts text2 _ _ _ _ _ _
      simp [List.countP_append, List.countP_cons, hpreT, hpreS,
        isStartThreadA, isThreadSendA]
    · intro parts text2 _ _ _ _ _ _
      simp [List.countP_append, List.countP_cons, hpreT, hpreS,
        isStartThreadA, isThreadSendA]

/-- A message in the allowed thread that mentions the bot. -/
def mC8 : Message :=
  { author := userA, channel := threadChannel, content := "<@7> more detail"
    attachments := [], mentionUserIds := ["7"] }

theorem c8_thread_reply_witness :
    (∃ pre parts, (messageCreate envA oAllOk mC8).1 =
        pre ++ [Action.invokeAI personaText parts, Action.replyText "Summary."]) ∧
    (∀ o2 : Oracle, (messageCreate envA o2 mC8).1.countP isStartThreadA = 0 ∧
        (messageCreate envA o2 mC8).1.countP isThreadSendA = 0) :=
  c8_thread_reply envA oAllOk mC8 "Summary." rfl (by decide) rfl rfl rfl rfl rfl
    (by intro h; cases h) (by decide)

/-- C3: a successful generation from the main channel creates exactly one
thread and sends exactly one close-control-bearing message into it, and
the original message is deleted last, strictly after that send; moreover,
for every oracle, the original message is deleted only if the thread send
was attempted earlier in the trace and succeeded. -/
theorem c3_main_relay_order (env : Env) (o : Oracle) (m : Message) (text : String)
    (h1 : m.author.bot = false)
    (h2 : env.botUserId ∈ m.mentionUserIds)
    (h3 : m.channel.id = env.allowedChannelId)
    (h4 : m.channel.isThread = false)
    (h5 : o.typingOk = true)
    (h6 : o.modelResult = some text)
    (h7 : o.startThreadOk = true)
    (h8 : o.threadSendOk = true)
    (h9 : o.deleteAfterOk = true)
    (h10 : firstAttachmentIsImage m = true → o.fetchResult ≠ none)
    (h11 : ¬(promptOf m.content = "" ∧ firstAttachmentIsImage m = false)) :
    (∃ pre parts,
       (messageCreate env o m).1 =
         pre ++ [Action.invokeAI personaText parts,
                 Action.startThread (threadName m.author.username),
                 Action.threadSend (analysisContent m.author.id text)
                   [closeButton m.author.id],
                 Action.deleteMessage] ∧
       (messageCreate env o m).1.countP isStartThreadA = 1 ∧
       (messageCreate env o m).1.countP isThreadSendA = 1) ∧
    (∀ o2 : Oracle, Action.deleteMessage ∈ (messageCreate env o2 m).1 →
       o2.threadSendOk = true ∧
       ∃ l1 l2 c comps,
         (messageCreate env o2 m).1 = l1 ++ Action.threadSend c comps :: l2 ∧
         Action.deleteMessage ∉ l1 ∧ Action.deleteMessage ∈ l2) := by
  constructor
  · rw [messageCreate_gen env o m h1 h2 (Or.inl h3)]
    cases himg : firstAttachmentIsImage m with
    | false =>
      have hstep := attachmentStep_noImage o m (promptOf m.content) himg
      have hp : ¬ promptOf m.content = "" := fun he => h11 ⟨he, himg⟩
      refine ⟨[Action.sendTyping], [ContentPart.text (promptOf m.content)], ?_, ?_, ?_⟩ <;>
        simp [generate, h5, hstep, hp, h6, h3, h4, h7, h8, h9,
          List.countP_append, List.countP_cons, isStartThreadA, isThreadSendA]
    | true =>
      obtain ⟨att, rest, ct, hA, hct, hsw⟩ := firstAttachmentIsImage_true m himg
      cases hb : o.fetchResult with
      | none => exact absurd hb (h10 himg)
      | some bytes =>
        have hstep :=
          attachmentStep_image o m (promptOf m.content) att rest ct bytes hA hct hsw hb
        refine ⟨[Action.sendTyping, Action.fetchUrl att.url],
                [ContentPart.text (promptOf m.content), urlToGenerativePart bytes ct],
                ?_, ?_, ?_⟩ <;>
          simp [generate, h5, hstep, h6, h3, h4, h7, h8, h9,
            List.countP_append, List.countP_cons, isStartThreadA, isThreadSendA]
  · intro o2 hdel
    rw [messageCreate_gen env o2 m h1 h2 (Or.inl h3)] at hdel ⊢
    rcases hstep : attachmentStep o2 m (promptOf m.content) with ⟨pre, popt⟩
    have hpre := attachmentStep_mem o2 m (promptOf m.content)
    rw [hstep] at hpre
    have hpreD : Action.deleteMessage ∉ pre := by
      intro hd
      rcases hpre _ hd with h | ⟨u, h⟩ <;> simp at h
    revert hdel
    apply generate_cases env o2 m
      (fun r => Action.deleteMessage ∈ r.1 →
        o2.threadSendOk = true ∧
        ∃ l1 l2 c comps, r.1 = l1 ++ Action.threadSend c comps :: l2 ∧
          Action.deleteMessage ∉ l1 ∧ Action.deleteMessage ∈ l2)
      pre popt hstep
    · intro _ hdel
      simp at hdel
    · intro _ _ hdel
      simp [hpreD] at hdel
    · intro parts _ _ _ hdel
      simp [hpreD] at hdel
    · intro parts _ _ _ _ hdel
      simp [hpreD] at hdel
    · intro parts text2 _ _ _ _ _ _ hdel
      simp [hpreD] at hdel
    · intro parts text2 _ _ _ _ _ _ _ hdel
      simp [hpreD] at hdel
    · intro parts text2 _ _ _ _ _ _ hsend _ hdel
      refine ⟨hsend, pre ++ [Action.invokeAI personaText parts,
          Action.startThread (threadName m.author.username)],
        [Action.deleteMessage, Action.replyError errorText],
        analysisContent m.author.id text2, [closeButton m.author.id], ?_, ?_, ?_⟩
      · simp
      · simp [hpreD]
      · simp
    · intro parts text2 _ _ _ _ _ _ hsend _ hdel
      refine ⟨hsend, pre ++ [Action.invokeAI personaText parts,
          Action.startThread (threadName m.author.username)],
        [Action.deleteMessage],
        analysisContent m.author.id text2, [closeButton m.author.id], ?_, ?_, ?_⟩
      · simp
      · simp [hpreD]
      · simp
    · intro parts text2 _ _ _ _ _ _ hdel
      simp [hpreD] at hdel
    · intro parts text2 _ _ _ _ _ _ hdel
      simp [hpreD] at hdel

/-- A qualifying message in the main channel. -/
def mC3 : Message :=
  { author := userA, channel := mainChannel, content := "<@7> analyze AAPL"
    attachments := [], mentionUserIds := ["7"] }

theorem c3_main_relay_order_witness :
    (∃ pre parts,
       (messageCreate envA oAllOk mC3).1 =
         pre ++ [Action.invokeAI personaText parts,
                 Action.startThread (threadName mC3.author.username),
                 Action.threadSend (analysisContent mC3.author.id "Summary.")
                   [closeButton mC3.author.id],
                 Action.deleteMessage] ∧
       (messageCreate envA oAllOk mC3).1.countP isStartThreadA = 1 ∧
       (messageCreate envA oAllOk mC3).1.countP isThreadSendA = 1) ∧
    (∀ o2 : Oracle, Action.deleteMessage ∈ (messageCreate envA o2 mC3).1 →
       o2.threadSendOk = true ∧
       ∃ l1 l2 c comps,
         (messageCreate envA o2 mC3).1 = l1 ++ Action.threadSend c comps :: l2 ∧
         Action.deleteMessage ∉ l1 ∧ Action.deleteMessage ∈ l2) :=
  c3_main_relay_order envA oAllOk mC3 "Summary." rfl (by decide) rfl rfl rfl rfl
    rfl rfl rfl (by intro h; cases h) (by decide)

theorem generate_outcome (env : Env) (o : Oracle) (m : Message)
    (h : o.validationReplyOk = true) : (generate env o m).2 = Outcome.normal := by
  rcases hstep : attachmentStep o m (promptOf m.content) with ⟨pre, popt⟩
  apply generate_cases env o m (fun r => r.2 = Outcome.normal) pre popt hstep
  · intro _; rfl
  · intro _ _; rfl
  · intro parts _ _ _; simp [h]
  · intro parts _ _ _ _; rfl
  · intro parts text _ _ _ _ _ _; rfl
  · intro parts text _ _ _ _ _ _ _; rfl
  · intro parts text _ _ _ _ _ _ _ _; rfl
  · intro parts text _ _ _ _ _ _ _ _; rfl
  · intro parts text _ _ _ _ _ _; rfl
  · intro parts text _ _ _ _ _ _; rfl

/-- An oracle on which the ephemeral authorization-denial reply fails. -/
def oDenyFail : Oracle := { oAllOk with denialReplyOk := false }

/-- An oracle on which the empty-prompt validation reply fails. -/
def oValFail : Oracle := { oAllOk with validationReplyOk := false }

/-- C7 counterexample: not every failure is caught at the handler
boundary.  A failing authorization-denial reply escapes the interaction
handler (line 166 is outside any `try`), and a failing empty-prompt
validation reply escapes the message handler (line 116 `return`s the
promise instead of awaiting it, so the surrounding `catch` never sees its
rejection). -/
theorem c7_counterexample :
    (interactionCreate oDenyFail
      { isButton := true, customId := "close_thread_42", userId := "9" }).2 =
      Outcome.escaped ∧
    (messageCreate envA oValFail
      { author := userA, channel := mainChannel, content := "<@7>"
        attachments := [], mentionUserIds := ["7"] }).2 = Outcome.escaped := by
  decide

/-- C7 (amended): every failure arising inside the two event handlers is
caught at the handler boundary, with exactly two exceptions: a failure of
the empty-prompt validation reply in the message handler and a failure of
the authorization-denial reply in the interaction handler.  When those two
replies succeed, no execution of either handler lets a failure escape,
whatever the outcome of every other external call. -/
theorem c7_amended_boundary :
    (∀ (env : Env) (o : Oracle) (m : Message), o.validationReplyOk = true →
       (messageCreate env o m).2 = Outcome.normal) ∧
    (∀ (o : Oracle) (i : Interaction), o.denialReplyOk = true →
       (interactionCreate o i).2 = Outcome.normal) := by
  constructor
  · intro env o m hval
    by_cases hb : m.author.bot = true
    · simp [messageCreate, hb]
    · have hb' : m.author.bot = false := by revert hb; cases m.author.bot <;> simp
      by_cases hm : env.botUserId ∈ m.mentionUserIds
      · by_cases hc : m.channel.id = env.allowedChannelId
        · rw [messageCreate_gen env o m hb' hm (Or.inl hc)]
          exact generate_outcome env o m hval
        · by_cases hth : m.channel.isThread = true ∧
              m.channel.parentId = some env.allowedChannelId
          · rw [messageCreate_gen env o m hb' hm (Or.inr hth)]
            exact generate_outcome env o m hval
          · simp [messageCreate, hb', hm, hc, hth]
      · by_cases hc : m.channel.id = env.allowedChannelId
        · by_cases hcd : o.cleanupDeleteOk = true
          · simp [messageCreate, hb', hm, hc, hcd]
          · have hcd' : o.cleanupDeleteOk = false := by
              revert hcd; cases o.cleanupDeleteOk <;> simp
            simp [messageCreate, hb', hm, hc, hcd']
        · by_cases hth : m.channel.isThread = true ∧
              m.channel.parentId = some env.allowedChannelId
          · simp [messageCreate, hb', hm, hc, hth]
          · simp [messageCreate, hb', hm, hc, hth]
  · intro o i hdeny
    unfold interactionCreate
    split_ifs <;> simp [hdeny] <;> split <;> rfl

theorem c7_amended_boundary_witness :
    (messageCreate envA oAllOk
      { author := userA, channel := mainChannel, content := "<@7> hello"
        attachments := [], mentionUserIds := ["7"] }).2 = Outcome.normal ∧
    (interactionCreate oAllOk
      { isButton := true, customId := "close_thread_42", userId := "9" }).2 =
      Outcome.normal :=
  ⟨c7_amended_boundary.1 envA oAllOk
    { author := userA, channel := mainChannel, content := "<@7> hello"
      attachments := [], mentionUserIds := ["7"] } rfl,
   c7_amended_boundary.2 oAllOk
    { isButton := true, customId := "close_thread_42", userId := "9" } rfl⟩

/-! ## Base64 round trip (C9) -/

/-- Induction on a byte list three bytes at a time, following the shape of
`base64Encode`. -/
theorem chunk3_induction (P : List Nat → Prop) (h0 : P []) (h1 : ∀ a, P [a])
    (h2 : ∀ a b, P [a, b]) (h3 : ∀ a b c l, P l → P (a :: b :: c :: l)) :
    ∀ l, P l
  | [] => h0
  | [a] => h1 a
  | [a, b] => h2 a b
  | a :: b :: c :: l => h3 a b c l (chunk3_induction P h0 h1 h2 h3 l)

theorem base64_roundtrip (bs : List Nat) (h : ∀ b ∈ bs, b < 256) :
    base64Decode (base64Encode bs) = some bs := by
  induction bs using chunk3_induction with
  | h0 => rfl
  | h1 a =>
    have ha : a < 256 := h a (by simp)
    have e0 : a / 4 < 64 := by omega
    have e1 : (a % 4) * 16 < 64 := by omega
    simp [base64Encode, base64Decode, b64Val_b64Char _ e0, b64Val_b64Char _ e1]
    omega
  | h2 a b =>
    have ha : a < 256 := h a (by simp)
    have hb : b < 256 := h b (by simp)
    have e0 : a / 4 < 64 := by omega
    have e1 : (a % 4) * 16 + b / 16 < 64 := by omega
    have e2 : (b % 16) * 4 < 64 := by omega
    have hne : b64Char ((b % 16) * 4) ≠ '=' := b64Char_ne_eq _ e2
    simp [base64Encode, base64Decode, hne,
      b64Val_b64Char _ e0, b64Val_b64Char _ e1, b64Val_b64Char _ e2]
    constructor <;> omega
  | h3 a b c l ih =>
    have ha : a < 256 := h a (by simp)
    have hb : b < 256 := h b (by simp)
    have hc : c < 256 := h c (by simp)
    have hl : ∀ x ∈ l, x < 256 := fun x hx => h x (by simp [hx])
    have e0 : a / 4 < 64 := by omega
    have e1 : (a % 4) * 16 + b / 16 < 64 := by omega
    have e2 : (b % 16) * 4 + c / 64 < 64 := by omega
    have e3 : c % 64 < 64 := by omega
    have hne2 : b64Char ((b % 16) * 4 + c / 64) ≠ '=' := b64Char_ne_eq _ e2
    have hne3 : b64Char (c % 64) ≠ '=' := b64Char_ne_eq _ e3
    simp [base64Encode, base64Decode, hne2, hne3, ih hl,
      b64Val_b64Char _ e0, b64Val_b64Char _ e1, b64Val_b64Char _ e2,
      b64Val_b64Char _ e3]
    refine ⟨by omega, by omega, by omega⟩

/-- C9: encoding fidelity of the attachment-processing helper.  For every
byte sequence and MIME type, `urlToGenerativePart` carries exactly
`base64Encode bytes` as its inline data together with the given MIME type,
and decoding that base64 string returns the original bytes. -/
theorem c9_base64_roundtrip (bytes : List Nat) (mimeType : String)
    (h : ∀ b ∈ bytes, b < 256) :
    urlToGenerativePart bytes mimeType =
      ContentPart.inlineData (String.mk (base64Encode bytes)) mimeType ∧
    base64Decode (base64Encode bytes) = some bytes :=
  ⟨rfl, base64_roundtrip bytes h⟩

theorem c9_base64_roundtrip_witness :
    (∀ b ∈ [0, 77, 255, 10], b < 256) ∧
    urlToGenerativePart [0, 77, 255, 10] "image/png" =
      ContentPart.inlineData (String.mk (base64Encode [0, 77, 255, 10])) "image/png" ∧
    base64Decode (base64Encode [0, 77, 255, 10]) = some [0, 77, 255, 10] :=
  ⟨by decide, c9_base64_roundtrip [0, 77, 255, 10] "image/png" (by decide)⟩

end KPBot
